import Mathlib

/-!
Verification of `render_fairness_indicator` from
`tensorflow_model_analysis/addons/fairness/notebook/jupyter/renderer.py`.

The function takes three optional keyword arguments (each defaulting to
Python `None`), validates that exactly one of the two metrics dictionaries
is truthy (Python truthiness: `None` and the empty dict are falsy, a
non-empty dict is truthy), rejects the multi-metrics path, and otherwise
constructs a `widget.FairnessIndicatorViewer()`, sets two of its fields,
and returns it.  Errors are modelled as `Except.error` carrying the
exception class name and message of the Python `raise`.
-/

namespace Renderer

/-- A Python dictionary with string keys, modelled as an association list.
Only its truthiness and identity matter to the renderer, which passes it
through unchanged. -/
abbrev Dict (α : Type) := List (String × α)

/-- Python truthiness of an optional dictionary argument: `None` is falsy,
a dict is truthy exactly when it is non-empty. -/
def truthy {α : Type} : Option (List α) → Bool
  | Option.none => false
  | Option.some d => !d.isEmpty

/-- A raised Python exception: its class name and its message, as they
appear at the `raise` statement. -/
structure PyError where
  exnType : String
  msg : String
  deriving DecidableEq, Repr

/-- The message of the first `raise ValueError(...)` in
`render_fairness_indicator` (source lines 36-38). -/
def exclusivityMsg : String :=
  "Exactly one of the \"slicing_metrics\" and \"multi_slicing_metrics\" parameters must be set."

/-- The message of the second `raise ValueError(...)` in
`render_fairness_indicator` (source lines 39-40). -/
def notSupportedMsg : String :=
  "\"multi_slicing_metrics\" is not supported on Jupyter yet."

/-- Modelled from the spec: `widget.FairnessIndicatorViewer` lives in the
module `tensorflow_model_analysis.addons.fairness.notebook.jupyter.widget`,
which is not among the source files; the spec describes it as a display
object "exposing at minimum two settable fields (`slicingMetrics`,
`eventHandlers`)" whose remaining state is opaque to this component.
`σ` is the value type of a slicing-metrics dict, `ε` the opaque type of
the event-handlers argument, and `ω` gathers all remaining
constructor-initialized fields of the widget. -/
structure FairnessIndicatorViewer (σ ε ω : Type) where
  slicingMetrics : Option (Dict σ)
  eventHandlers : Option ε
  otherState : ω
  deriving DecidableEq, Repr

/-- `render_fairness_indicator(slicing_metrics=None, multi_slicing_metrics=None,
event_handlers=None)`, translated from the source.  `widget_ctor` stands for
the view object produced by the external call `widget.FairnessIndicatorViewer()`;
the function then overwrites its `slicingMetrics` and `eventHandlers` fields
with the arguments and returns it.  Both `raise ValueError(...)` statements
become `Except.error` values carrying the class name and message. -/
def render_fairness_indicator {σ ε ω : Type}
    (slicing_metrics : Option (Dict σ))
    (multi_slicing_metrics : Option (Dict (Dict σ)))
    (event_handlers : Option ε)
    (widget_ctor : FairnessIndicatorViewer σ ε ω) :
    Except PyError (FairnessIndicatorViewer σ ε ω) :=
  if (truthy slicing_metrics && truthy multi_slicing_metrics) ||
      (!truthy slicing_metrics && !truthy multi_slicing_metrics) then
    Except.error { exnType := "ValueError", msg := exclusivityMsg }
  else if truthy multi_slicing_metrics then
    Except.error { exnType := "ValueError", msg := notSupportedMsg }
  else
    Except.ok { widget_ctor with
        slicingMetrics := slicing_metrics
        eventHandlers := event_handlers }

/-- The validation predicate of the success path: `slicing_metrics` truthy
and `multi_slicing_metrics` falsy. -/
def validationPasses {σ : Type} (slicing_metrics : Option (Dict σ))
    (multi_slicing_metrics : Option (Dict (Dict σ))) : Bool :=
  truthy slicing_metrics && !truthy multi_slicing_metrics

/-- A concrete default widget over `Nat` parameters, used for closed
witness statements. -/
def natWidget : FairnessIndicatorViewer Nat Nat Nat :=
  { slicingMetrics := Option.none, eventHandlers := Option.none, otherState := 0 }

/-- C1: whenever `slicing_metrics` is a non-empty mapping `M`,
`multi_slicing_metrics` is absent or empty, and `event_handlers` is any
value `H`, the call returns a View whose `slicingMetrics` field equals
`M` and whose `eventHandlers` field equals `H`. -/
theorem C1_success_fields {σ ε ω : Type} (M : Dict σ) (hM : M ≠ [])
    (msm : Option (Dict (Dict σ))) (hmsm : truthy msm = false)
    (H : Option ε) (ctor : FairnessIndicatorViewer σ ε ω) :
    ∃ v : FairnessIndicatorViewer σ ε ω,
      render_fairness_indicator (Option.some M) msm H ctor = Except.ok v ∧
      v.slicingMetrics = Option.some M ∧ v.eventHandlers = H := by
  have hsm : truthy (Option.some M) = true := by
    cases M with
    | nil => exact absurd rfl hM
    | cons a as => simp [truthy]
  refine ⟨{ ctor with slicingMetrics := Option.some M, eventHandlers := H },
    ?_, rfl, rfl⟩
  simp [render_fairness_indicator, hsm, hmsm]

/-- Witness for C1 at the scenario input: a one-entry slicing-metrics
dict, no multi dict, a concrete handler. -/
theorem C1_success_fields_witness :
    ∃ v : FairnessIndicatorViewer Nat Nat Nat,
      render_fairness_indicator (Option.some [("slice1", 1)]) Option.none
        (Option.some 7) natWidget = Except.ok v ∧
      v.slicingMetrics = Option.some [("slice1", 1)] ∧
      v.eventHandlers = Option.some 7 :=
  C1_success_fields [("slice1", 1)] (by decide) Option.none rfl
    (Option.some 7) natWidget

/-- C2: whenever both metrics dictionaries are truthy (non-empty), the
call raises the exclusivity `ValueError`; the result equals that exact
error, so neither the not-supported check nor the success path is
reached. -/
theorem C2_both_set {σ ε ω : Type} (sm : Option (Dict σ))
    (msm : Option (Dict (Dict σ)))
    (hs : truthy sm = true) (hm : truthy msm = true)
    (eh : Option ε) (ctor : FairnessIndicatorViewer σ ε ω) :
    render_fairness_indicator sm msm eh ctor =
      Except.error { exnType := "ValueError", msg := exclusivityMsg } := by
  simp [render_fairness_indicator, hs, hm]

/-- Witness for C2: both dictionaries non-empty. -/
theorem C2_both_set_witness :
    render_fairness_indicator (Option.some [("a", 1)])
      (Option.some [("eval1", [("a", 1)])]) (Option.some 3) natWidget =
      Except.error { exnType := "ValueError", msg := exclusivityMsg } :=
  C2_both_set (Option.some [("a", 1)]) (Option.some [("eval1", [("a", 1)])])
    rfl rfl (Option.some 3) natWidget

/-- C3: whenever neither metrics dictionary is set — absent and empty
both counting as not set — the call raises the exclusivity
`ValueError`. -/
theorem C3_neither_set {σ ε ω : Type} (sm : Option (Dict σ))
    (msm : Option (Dict (Dict σ)))
    (hs : truthy sm = false) (hm : truthy msm = false)
    (eh : Option ε) (ctor : FairnessIndicatorViewer σ ε ω) :
    render_fairness_indicator sm msm eh ctor =
      Except.error { exnType := "ValueError", msg := exclusivityMsg } := by
  simp [render_fairness_indicator, hs, hm]

/-- Witness for C3 at the scenario input: both dictionaries present but
empty. -/
theorem C3_neither_set_witness :
    render_fairness_indicator (Option.some ([] : Dict Nat))
      (Option.some []) Option.none natWidget =
      Except.error { exnType := "ValueError", msg := exclusivityMsg } :=
  C3_neither_set (Option.some []) (Option.some []) rfl rfl Option.none natWidget

/-- C4: whenever only `multi_slicing_metrics` is set (non-empty) and
`slicing_metrics` is absent or empty, the call raises the not-supported
`ValueError`, whatever the contents of the multi dict. -/
theorem C4_multi_only {σ ε ω : Type} (sm : Option (Dict σ))
    (msm : Option (Dict (Dict σ)))
    (hs : truthy sm = false) (hm : truthy msm = true)
    (eh : Option ε) (ctor : FairnessIndicatorViewer σ ε ω) :
    render_fairness_indicator sm msm eh ctor =
      Except.error { exnType := "ValueError", msg := notSupportedMsg } := by
  simp [render_fairness_indicator, hs, hm]

/-- Witness for C4 with a three-entry multi dict (more than the two
entries the docstring mentions). -/
theorem C4_multi_only_witness :
    render_fairness_indicator (Option.none : Option (Dict Nat))
      (Option.some [("e1", []), ("e2", []), ("e3", [])])
      Option.none natWidget =
      Except.error { exnType := "ValueError", msg := notSupportedMsg } :=
  C4_multi_only Option.none (Option.some [("e1", []), ("e2", []), ("e3", [])])
    rfl rfl Option.none natWidget

/-- C5: every call either passes validation and returns a fully
configured View — both fields set from the arguments, all other state
exactly the constructor's — or fails validation and returns an error
carrying no View at all; there is no partial success. -/
theorem C5_no_partial_success {σ ε ω : Type} (sm : Option (Dict σ))
    (msm : Option (Dict (Dict σ))) (eh : Option ε)
    (ctor : FairnessIndicatorViewer σ ε ω) :
    (validationPasses sm msm = true ∧
      render_fairness_indicator sm msm eh ctor =
        Except.ok { ctor with slicingMetrics := sm, eventHandlers := eh }) ∨
    (validationPasses sm msm = false ∧
      ∃ e : PyError,
        render_fairness_indicator sm msm eh ctor = Except.error e) := by
  cases hsm : truthy sm <;> cases hmm : truthy msm <;>
    simp [render_fairness_indicator, validationPasses, hsm, hmm]

/-- C6: the call returns a View exactly when `slicing_metrics` is truthy
and `multi_slicing_metrics` is falsy; in every other case it returns an
error, and these two outcomes are the only ones. -/
theorem C6_ok_iff_valid {σ ε ω : Type} (sm : Option (Dict σ))
    (msm : Option (Dict (Dict σ))) (eh : Option ε)
    (ctor : FairnessIndicatorViewer σ ε ω) :
    ((∃ v, render_fairness_indicator sm msm eh ctor = Except.ok v) ↔
      (truthy sm = true ∧ truthy msm = false)) ∧
    ((∃ e, render_fairness_indicator sm msm eh ctor = Except.error e) ↔
      ¬(truthy sm = true ∧ truthy msm = false)) := by
  cases hsm : truthy sm <;> cases hmm : truthy msm <;>
    simp [render_fairness_indicator, hsm, hmm]

/-- C7: an empty-but-present multi dict counts as not set: for every
non-empty `M`, calling with `slicing_metrics = M` and
`multi_slicing_metrics = {}` succeeds and returns the configured View
instead of raising. -/
theorem C7_empty_multi_ignored {σ ε ω : Type} (M : Dict σ) (hM : M ≠ [])
    (H : Option ε) (ctor : FairnessIndicatorViewer σ ε ω) :
    render_fairness_indicator (Option.some M) (Option.some []) H ctor =
      Except.ok { ctor with
                  slicingMetrics := Option.some M,
                  eventHandlers := H } := by
  have hsm : truthy (Option.some M) = true := by
    cases M with
    | nil => exact absurd rfl hM
    | cons a as => simp [truthy]
  simp [render_fairness_indicator, hsm, truthy]
  exact hM

/-- Witness for C7: a one-entry slicing dict together with an explicitly
empty multi dict. -/
theorem C7_empty_multi_ignored_witness :
    render_fairness_indicator (Option.some [("slice1", 1)])
      (Option.some []) (Option.some 7) natWidget =
      Except.ok { natWidget with
                  slicingMetrics := Option.some [("slice1", 1)],
                  eventHandlers := Option.some 7 } :=
  C7_empty_multi_ignored [("slice1", 1)] (by decide) (Option.some 7) natWidget

/-- Counterexample to C8 as stated: at concrete inputs triggering each of
the two failure modes, the raised errors carry the same exception class,
so the two failures are not two distinct error kinds distinguishable by
the caller at the class level. -/
theorem C8_same_class_counterexample :
    ∃ e₁ e₂ : PyError,
      render_fairness_indicator (Option.some [("a", 1)])
        (Option.some [("eval1", [("a", 1)])]) Option.none natWidget =
        Except.error e₁ ∧
      render_fairness_indicator (Option.none : Option (Dict Nat))
        (Option.some [("eval1", [("a", 1)])]) Option.none natWidget =
        Except.error e₂ ∧
      e₁.exnType = e₂.exnType :=
  ⟨{ exnType := "ValueError", msg := exclusivityMsg },
   { exnType := "ValueError", msg := notSupportedMsg },
   rfl, rfl, rfl⟩

/-- C8 amended: every error the function raises is of the single class
`ValueError`; the exclusivity failure and the not-supported failure are
distinguishable by the caller only through their two distinct messages,
one per failure mode. -/
theorem C8_distinct_messages {σ ε ω : Type} (sm : Option (Dict σ))
    (msm : Option (Dict (Dict σ))) (eh : Option ε)
    (ctor : FairnessIndicatorViewer σ ε ω) (e : PyError)
    (he : render_fairness_indicator sm msm eh ctor = Except.error e) :
    e.exnType = "ValueError" ∧
    (if truthy msm && !truthy sm then e.msg = notSupportedMsg
      else e.msg = exclusivityMsg) ∧
    notSupportedMsg ≠ exclusivityMsg := by
  refine ⟨?_, ?_, by decide⟩ <;>
    cases hsm : truthy sm <;> cases hmm : truthy msm <;>
      simp [render_fairness_indicator, hsm, hmm] at he <;>
        subst he <;> simp [hsm, hmm]

/-- Witness for C8 amended at the neither-set input. -/
theorem C8_distinct_messages_witness :
    ({ exnType := "ValueError", msg := exclusivityMsg } : PyError).exnType =
      "ValueError" ∧
    (if truthy (Option.some ([("eval1", [("a", 1)])] : Dict (Dict Nat))) &&
        !truthy (Option.some ([("a", 1)] : Dict Nat)) then
      ({ exnType := "ValueError", msg := exclusivityMsg } : PyError).msg =
        notSupportedMsg
      else
      ({ exnType := "ValueError", msg := exclusivityMsg } : PyError).msg =
        exclusivityMsg) ∧
    notSupportedMsg ≠ exclusivityMsg :=
  C8_distinct_messages (Option.some [("a", 1)])
    (Option.some [("eval1", [("a", 1)])]) Option.none natWidget
    { exnType := "ValueError", msg := exclusivityMsg } rfl

/-- Counterexample to C9 as stated: at the both-empty input the raised
error's message is not the literal the claim quotes (the code's message
also names the two parameters). -/
theorem C9_message_counterexample :
    ∃ e : PyError,
      render_fairness_indicator (Option.some ([] : Dict Nat))
        (Option.some []) Option.none natWidget = Except.error e ∧
      e.msg ≠ "Exactly one of the metrics parameters must be set." :=
  ⟨{ exnType := "ValueError", msg := exclusivityMsg }, rfl, by decide⟩

/-- C9 amended: whenever the exclusivity check fails (both metrics
truthy, or both falsy), the raised error carries exactly the message
written at the raise site, naming both parameters. -/
theorem C9_exclusivity_message {σ ε ω : Type} (sm : Option (Dict σ))
    (msm : Option (Dict (Dict σ))) (eh : Option ε)
    (ctor : FairnessIndicatorViewer σ ε ω)
    (hv : ((truthy sm && truthy msm) || (!truthy sm && !truthy msm)) = true) :
    render_fairness_indicator sm msm eh ctor =
      Except.error { exnType := "ValueError",
                     msg := "Exactly one of the \"slicing_metrics\" and \"multi_slicing_metrics\" parameters must be set." } := by
  have h : exclusivityMsg =
      "Exactly one of the \"slicing_metrics\" and \"multi_slicing_metrics\" parameters must be set." := rfl
  rw [render_fairness_indicator, if_pos hv, h]

/-- Witness for C9 amended at the both-empty input. -/
theorem C9_exclusivity_message_witness :
    render_fairness_indicator (Option.some ([] : Dict Nat))
      (Option.some []) Option.none natWidget =
      Except.error { exnType := "ValueError",
                     msg := "Exactly one of the \"slicing_metrics\" and \"multi_slicing_metrics\" parameters must be set." } :=
  C9_exclusivity_message (Option.some []) (Option.some []) Option.none
    natWidget rfl

/-- C10: on the success path the function writes exactly the
`slicingMetrics` and `eventHandlers` fields of the freshly constructed
View, leaving every other constructor-initialized field (`otherState`)
unchanged, and the result does not depend on the (falsy)
`multi_slicing_metrics` argument at all. -/
theorem C10_writes_only_two_fields {σ ε ω : Type} (sm : Option (Dict σ))
    (msm msm' : Option (Dict (Dict σ))) (eh : Option ε)
    (ctor : FairnessIndicatorViewer σ ε ω)
    (hs : truthy sm = true) (hm : truthy msm = false)
    (hm' : truthy msm' = false) :
    render_fairness_indicator sm msm eh ctor =
      Except.ok { ctor with slicingMetrics := sm, eventHandlers := eh } ∧
    ({ ctor with slicingMetrics := sm, eventHandlers := eh } :
        FairnessIndicatorViewer σ ε ω).otherState = ctor.otherState ∧
    render_fairness_indicator sm msm eh ctor =
      render_fairness_indicator sm msm' eh ctor := by
  refine ⟨?_, rfl, ?_⟩ <;> simp [render_fairness_indicator, hs, hm, hm']

/-- Witness for C10 with a non-trivial constructor state and two
different falsy multi arguments. -/
theorem C10_writes_only_two_fields_witness :
    render_fairness_indicator (Option.some [("slice1", 1)]) Option.none
      (Option.some 7)
      ({ slicingMetrics := Option.none, eventHandlers := Option.none,
         otherState := 5 } : FairnessIndicatorViewer Nat Nat Nat) =
      Except.ok { slicingMetrics := Option.some [("slice1", 1)],
                  eventHandlers := Option.some 7, otherState := 5 } ∧
    ({ slicingMetrics := Option.some [("slice1", 1)],
       eventHandlers := Option.some 7, otherState := 5 } :
        FairnessIndicatorViewer Nat Nat Nat).otherState =
      ({ slicingMetrics := Option.none, eventHandlers := Option.none,
         otherState := 5 } : FairnessIndicatorViewer Nat Nat Nat).otherState ∧
    render_fairness_indicator (Option.some [("slice1", 1)]) Option.none
      (Option.some 7)
      ({ slicingMetrics := Option.none, eventHandlers := Option.none,
         otherState := 5 } : FairnessIndicatorViewer Nat Nat Nat) =
    render_fairness_indicator (Option.some [("slice1", 1)]) (Option.some [])
      (Option.some 7)
      ({ slicingMetrics := Option.none, eventHandlers := Option.none,
         otherState := 5 } : FairnessIndicatorViewer Nat Nat Nat) :=
  C10_writes_only_two_fields (Option.some [("slice1", 1)]) Option.none
    (Option.some []) (Option.some 7)
    { slicingMetrics := Option.none, eventHandlers := Option.none,
      otherState := 5 } rfl rfl rfl

end Renderer
